import Mathlib

/-!
# EVAC+ Recommendation Engine — verification development

Shallow embedding of the EVAC+ emergency-care recommendation system
(backend `server.js`: temporal model, facility catalog, facility state
projector; frontend `App.js`: travel estimator and recommendation engine),
together with theorems checking the natural-language specification
against the code.

Conventions of the embedding:
* JS numbers that are integers in every reachable state are `ℕ`/`ℤ`;
  fractional wait-time multipliers and scores are exact rationals `ℚ`;
  the trigonometric travel estimator is modelled over `ℝ`.
* `Math.round` is `jround` (`⌊x + 1/2⌋`, which is JS round-half-up).
* Strings (`'ER'`, `'Open'`, persona ids, severity labels, decision
  labels) are kept as `String`, exactly as the source compares them.
* A JS function that can crash (a `TypeError` from reading a property of
  `undefined`, e.g. `scored[0].facility` on an empty array) or that
  returns early without producing a result is modelled with `Option`:
  `none` means "no Recommendation was produced".
* `arr.sort(cmp)[0]` (ES2019 stable sort) is modelled by `firstMaxBy` /
  `firstMinBy`: the first element of the array attaining the optimum.
-/

namespace Evac

/-- JS `Math.round`: round half toward positive infinity, `⌊x + 1/2⌋`. -/
def jround (q : ℚ) : ℤ := ⌊q + 1/2⌋

/-- Models `arr.sort((a, b) => cmp(b) - cmp(a))[0]` for a stable sort:
the first element of the list whose key is maximal (a later element
replaces the accumulator only when its key is strictly greater). -/
def firstMaxBy {α β : Type} [LinearOrder β] (key : α → β) : List α → Option α
  | [] => none
  | x :: xs => some (xs.foldl (fun acc y => if key acc < key y then y else acc) x)

/-- Models `arr.sort((a, b) => cmp(a) - cmp(b))[0]` for a stable sort:
the first element of the list whose key is minimal. -/
def firstMinBy {α β : Type} [LinearOrder β] (key : α → β) : List α → Option α
  | [] => none
  | x :: xs => some (xs.foldl (fun acc y => if key y < key acc then y else acc) x)

/-!
## Backend temporal model (`server.js`)

`getTimeMultiplier`, `getTrafficLevel` / the frontend's identical
`getTrafficForHour`, and the open/closed status rule used by
`getFacilitiesWithCurrentStatus`.
-/

/-- Models `server.js` `getTimeMultiplier(facilityType, specifiedHour)`: wait-time
multiplier for an hour of day. The source treats every non-`'ER'` type by
the Urgent Care table (its `else` branch). -/
def getTimeMultiplier (facilityType : String) (hour : ℕ) : ℚ :=
  if facilityType = "ER" then
    if 18 ≤ hour ∧ hour < 23 then 1.8
    else if 14 ≤ hour ∧ hour < 18 then 1.5
    else if 10 ≤ hour ∧ hour < 14 then 1.0
    else if 6 ≤ hour ∧ hour < 10 then 1.2
    else 0.7
  else
    if 9 ≤ hour ∧ hour < 12 then 1.6
    else if 12 ≤ hour ∧ hour < 14 then 1.3
    else if 14 ≤ hour ∧ hour < 18 then 1.8
    else if 18 ≤ hour ∧ hour < 20 then 1.4
    else if 20 ≤ hour ∨ hour < 8 then 0
    else 1.0

/-- Models `App.js` `getTrafficForHour(hour)` (identical to the backend's
`getTrafficLevel(specifiedHour)`): traffic level for an hour of day. -/
def getTrafficForHour (hour : ℕ) : String :=
  if (7 ≤ hour ∧ hour < 10) ∨ (16 ≤ hour ∧ hour < 19) then "severe"
  else if (6 ≤ hour ∧ hour < 7) ∨ (10 ≤ hour ∧ hour < 12) ∨ (14 ≤ hour ∧ hour < 16) then
    "heavy"
  else if 12 ≤ hour ∧ hour < 14 then "moderate"
  else "low"

/-- The open/closed status computation inside `getFacilitiesWithCurrentStatus`:
ERs are always `'Open'`; an Urgent Care with both `openHour` and `closeHour`
set is `'Open'` on the `[openHour, closeHour)` window, with `(0, 24)` as an
always-open sentinel; an Urgent Care missing either bound defaults to the
8–20 window. A facility of any other type keeps the initial `'Open'`. -/
def facilityStatus (facilityType : String) (openHour closeHour : Option ℕ)
    (hour : ℕ) : String :=
  if facilityType = "ER" then "Open"
  else if facilityType = "Urgent Care" then
    if openHour.isSome ∧ closeHour.isSome then
      if openHour.getD 0 = 0 ∧ closeHour.getD 0 = 24 then "Open"
      else if hour < openHour.getD 0 ∨ hour ≥ closeHour.getD 0 then "Closed"
      else "Open"
    else if hour < 8 ∨ hour ≥ 20 then "Closed" else "Open"
  else "Open"

/-!
## Facility catalog and state projector (`server.js`)
-/

/-- A latitude/longitude pair (`position: { lat, lng }`), kept as exact
rationals for the catalog's decimal literals. -/
structure Position where
  lat : ℚ
  lng : ℚ
  deriving DecidableEq, Repr

/-- A `baseFacilities` catalog entry. Display-only fields that no modelled
logic reads (`insurance`, `specialties`, `description`, the `hours` label
string) are omitted. `openHour`/`closeHour` are `none` when the source
object lacks the field. -/
structure BaseFacility where
  id : ℕ
  name : String
  type : String
  position : Position
  baseWaitTime : ℕ
  openHour : Option ℕ := none
  closeHour : Option ℕ := none
  deriving DecidableEq, Repr

/-- The projected per-hour view returned by `getFacilitiesWithCurrentStatus`:
the facility plus `currentWaitTime`, `waitTimeDisplay`, `status`, `capacity`. -/
structure FacilityView extends BaseFacility where
  currentWaitTime : ℤ
  waitTimeDisplay : String
  status : String
  capacity : String
  deriving DecidableEq, Repr

/-- The catalog's only 24-hour urgent care (id 6): `openHour 0`,
`closeHour 24`, base wait 20 minutes. Named separately because several
theorems are about it. -/
def uc247 : BaseFacility :=
  { id := 6, name := "Urgent Care 24/7 Atlanta", type := "Urgent Care",
    position := { lat := 33.7639936949412, lng := -84.39236397399422 },
    baseWaitTime := 20, openHour := some 0, closeHour := some 24 }

/-- The `baseFacilities` catalog of `server.js`: three ERs and five
Urgent Care facilities. -/
def baseFacilities : List BaseFacility :=
  [ { id := 1, name := "Grady Memorial Hospital", type := "ER",
      position := { lat := 33.75195416278939, lng := -84.3819428302756 },
      baseWaitTime := 45 },
    { id := 2, name := "Emory University Hospital Midtown", type := "ER",
      position := { lat := 33.76869084805124, lng := -84.38621170037598 },
      baseWaitTime := 35 },
    { id := 3, name := "Piedmont Atlanta Hospital", type := "ER",
      position := { lat := 33.81103085024464, lng := -84.3943913906418 },
      baseWaitTime := 40 },
    { id := 4, name := "Peachtree Immediate Care - Midtown", type := "Urgent Care",
      position := { lat := 33.786171179889614, lng := -84.40213978794662 },
      baseWaitTime := 15, openHour := some 8, closeHour := some 20 },
    { id := 5, name := "Northside Family Medicine & Urgent Care - Midtown",
      type := "Urgent Care",
      position := { lat := 33.78559512820032, lng := -84.3881366051433 },
      baseWaitTime := 18, openHour := some 8, closeHour := some 20 },
    uc247,
    { id := 7, name := "Piedmont Urgent Care", type := "Urgent Care",
      position := { lat := 33.774404209332836, lng := -84.35837497260282 },
      baseWaitTime := 17, openHour := some 7, closeHour := some 19 },
    { id := 8, name := "Atlanta Urgent Care at Peachtree", type := "Urgent Care",
      position := { lat := 33.820357661936804, lng := -84.39200269737198 },
      baseWaitTime := 16, openHour := some 8, closeHour := some 20 } ]

/-- The body of `getFacilitiesWithCurrentStatus`'s `map`: project one catalog
entry to its view at `hour`. `currentWaitTime = Math.round(baseWaitTime *
multiplier)`; `waitTimeDisplay` shows `'Closed'` unless the facility is open
with a positive wait; `capacity` buckets the wait at 20 and 40 minutes. -/
def projectFacility (facility : BaseFacility) (hour : ℕ) : FacilityView :=
  let multiplier := getTimeMultiplier facility.type hour
  let currentWaitTime := jround ((facility.baseWaitTime : ℚ) * multiplier)
  let status := facilityStatus facility.type facility.openHour facility.closeHour hour
  { facility with
    currentWaitTime := currentWaitTime
    waitTimeDisplay :=
      if status = "Open" ∧ 0 < currentWaitTime then
        toString currentWaitTime ++ " min"
      else "Closed"
    status := status
    capacity :=
      if currentWaitTime < 20 then "High"
      else if currentWaitTime < 40 then "Medium"
      else "Low" }

/-- Models `server.js` `getFacilitiesWithCurrentStatus(specifiedHour)`: the current
view of every catalog facility at the given hour. -/
def getFacilitiesWithCurrentStatus (hour : ℕ) : List FacilityView :=
  baseFacilities.map (fun f => projectFacility f hour)

/-!
## Frontend recommendation engine (`App.js` `handleGetRecommendation`)

The engine consumes the projected facility views and a travel estimator.
`calculateTravelTime` closes over the simulated hour; the engine only ever
reads the estimate's `time` (minutes) and `distance` (the `toFixed(1)`
display string), so the engine is parameterized by an abstract
`travel : Position → TravelEstimate`, instantiated with the real
estimator or any other concrete function.
-/

/-- The `{ time, distance }` object returned by `calculateTravelTime`:
`time` is whole minutes, `distance` is the `distance.toFixed(1)` string. -/
structure TravelEstimate where
  time : ℕ
  distance : String
  deriving DecidableEq, Repr

/-- The `result` object built by `handleGetRecommendation`. `facility` is
`none` when the source leaves it `undefined` (e.g. `grady || ers[0]` with
no Grady-named facility and no open ER). -/
structure Recommendation where
  decision : String
  facility : Option FacilityView
  reasoning : List String
  travelTime : Option TravelEstimate
  deriving DecidableEq, Repr

/-- Models the guard of `calculateTravelTime`: a missing facility position yields the
zero-distance/zero-time sentinel `{ time: 0, distance: '0.0' }` instead of
an estimate. -/
def travelOpt (travel : Position → TravelEstimate) :
    Option Position → TravelEstimate
  | some p => travel p
  | none => { time := 0, distance := "0.0" }

/-- Helper for `hasGrady`: scan a character list for the substring
`"Grady"`. -/
def hasGradyAux : List Char → Bool
  | 'G' :: 'r' :: 'a' :: 'd' :: 'y' :: _ => true
  | _ :: tl => hasGradyAux tl
  | [] => false

/-- JS `name.includes('Grady')`: the facility-name substring test used to
pick the trauma center in the Severe branch. -/
def hasGrady (name : String) : Bool := hasGradyAux name.data

/-- A JS template literal renders `undefined` for a missing object, as in
`` `${result.facility?.name}` `` when no facility was found. -/
def optName : Option FacilityView → String
  | some f => f.name
  | none => "undefined"

/-- Models `const ers = facilities.filter(f => f.type === 'ER' && f.status === 'Open')`. -/
def erOpen (facilities : List FacilityView) : List FacilityView :=
  facilities.filter fun f => f.type == "ER" && f.status == "Open"

/-- Models `const urgentCares = facilities.filter(f => f.type === 'Urgent Care' && f.status === 'Open')`. -/
def ucOpen (facilities : List FacilityView) : List FacilityView :=
  facilities.filter fun f => f.type == "Urgent Care" && f.status == "Open"

/-- The Severe/dementia score
`(100 - facility.currentWaitTime) + (50 - travel.time * 2)`. -/
def severeScore (facility : FacilityView) (travelTime : ℕ) : ℚ :=
  (100 - (facility.currentWaitTime : ℚ)) + (50 - (travelTime : ℚ) * 2)

/-- The Moderate-branch weighted score, with persona-specific weights
written `weights.waitTime / 100` etc. exactly as the source computes them,
and the persona's category bonus. Any persona other than the three named
ones falls into the source's `else` (burn) branch. -/
def moderateScore (selectedPersona : String) (facility : FacilityView)
    (travelTime : ℕ) : ℚ :=
  if selectedPersona = "pregnancy" then
    (100 - (facility.currentWaitTime : ℚ)) * (50 / 100)
      + (50 - (travelTime : ℚ)) * (30 / 100)
      + (if facility.type = "ER" then 20 else 0)
  else if selectedPersona = "asthma" then
    (100 - (facility.currentWaitTime : ℚ)) * (40 / 100)
      + (50 - (travelTime : ℚ)) * (40 / 100)
      + (if facility.type = "Urgent Care" then 20 else 0)
  else if selectedPersona = "dementia" then
    (100 - (facility.currentWaitTime : ℚ)) * (30 / 100)
      + (50 - (travelTime : ℚ)) * (50 / 100)
      + 20
  else
    (100 - (facility.currentWaitTime : ℚ)) * (40 / 100)
      + (50 - (travelTime : ℚ)) * (30 / 100)
      + (if facility.type = "Urgent Care" then 30 else 0)

/-- Models `const allFacilities = selectedPersona === 'burn' ? [...ers, ...urgentCares] : ers`. -/
def moderateCandidates (selectedPersona : String)
    (facilities : List FacilityView) : List FacilityView :=
  if selectedPersona = "burn" then erOpen facilities ++ ucOpen facilities
  else erOpen facilities

/-- Reasoning list of the Severe branch for the pregnancy and asthma personas. -/
def severeStayReasoning (selectedPersona : String) (fac : Option FacilityView) :
    List String :=
  if selectedPersona = "pregnancy" then
    [ "Extreme blood pressure and seizure risk requires immediate specialized care",
      "Ambulance provides critical monitoring and can administer emergency medications",
      optName fac ++ " has OB specialists available 24/7",
      "Do not drive yourself - risk of seizure while driving is too high" ]
  else
    [ "Red Zone (<50% PFM) indicates severe respiratory distress",
      "Relief inhaler not working - need immediate medical intervention",
      "Ambulance can provide nebulizer treatment and oxygen en route",
      optName fac ++ " can provide intubation if breathing worsens" ]

/-- Reasoning list of the Severe branch for the burn persona. -/
def severeBurnReasoning (fac : Option FacilityView) (tt : TravelEstimate) :
    List String :=
  [ "Severe burns require immediate trauma care",
    "Ambulance provides pain management and sterile wound care en route",
    optName fac ++ " has specialized burn unit",
    "Facility is " ++ tt.distance ++ " miles away (" ++ toString tt.time
      ++ " min by ambulance)" ]

/-- Reasoning list of the Severe branch for the dementia persona. -/
def severeDementiaReasoning (best : FacilityView) : List String :=
  [ "Severe crisis (screaming, hitting, paranoia) requires immediate de-escalation",
    "Caretaker should accompany to provide familiar presence and medical history",
    best.name ++ " has shortest wait (" ++ toString best.currentWaitTime ++ " min)",
    "Avoid bright lights and loud noises - request quiet room upon arrival" ]

/-- Persona-specific reasoning of the Moderate branch. -/
def moderateReasoning (selectedPersona : String) (best : FacilityView)
    (tt : TravelEstimate) (totalTime : ℤ) : List String :=
  if selectedPersona = "pregnancy" then
    [ "High blood pressure and headache need professional evaluation",
      best.name ++ " can run lab tests to check for pre-eclampsia",
      "Wait time: " ++ toString best.currentWaitTime ++ " min, Travel: "
        ++ toString tt.time ++ " min",
      "Total time to see doctor: ~" ++ toString totalTime ++ " min" ]
  else if selectedPersona = "asthma" then
    [ "Yellow Zone (50-80% PFM) - symptoms worsening, need nebulizer treatment",
      best.name ++ " can provide quick-relief treatment",
      (if best.type = "Urgent Care" then "Lower cost than ER"
       else "Full emergency capabilities"),
      "Total time: " ++ toString totalTime ++ " min (" ++ toString tt.time
        ++ " min travel + " ++ toString best.currentWaitTime ++ " min wait)" ]
  else if selectedPersona = "dementia" then
    [ "Moderate agitation - increased confusion and restlessness",
      "Closer facility reduces stress and disorientation",
      best.name ++ " is only " ++ tt.distance ++ " miles away",
      "Bring comfort items and have caretaker explain each step" ]
  else
    [ "Moderate burns need professional assessment",
      best.name ++ " has shortest total time (" ++ toString totalTime ++ " min)",
      (if best.type = "Urgent Care" then
        "Much lower cost than ER ($80-150 vs $300-500)"
       else "ER provides comprehensive care"),
      "Travel: " ++ tt.distance ++ " mi, " ++ toString tt.time ++ " min" ]

/-- Reasoning of the Mild branch when an open Urgent Care is chosen. -/
def mildUCReasoning (selectedPersona : String) (best : FacilityView)
    (tt : TravelEstimate) (totalTime : ℤ) : List String :=
  [ (if selectedPersona = "burn" then "Minor burns can be treated at Urgent Care"
     else if selectedPersona = "asthma" then
       "Green Zone (80-100% PFM) - symptoms controlled, routine check recommended"
     else "Mild distress can be managed with calming environment"),
    best.name ++ " has shortest total time (" ++ toString totalTime ++ " min)",
    "Much lower cost than ER ($80-150 vs $300-500)",
    "Travel: " ++ tt.distance ++ " mi in " ++ toString tt.time ++ " min" ]

/-- Reasoning of the Mild branch's ER fallback (pregnancy, or every
Urgent Care closed). -/
def mildERReasoning (selectedPersona : String) (noUCs : Bool)
    (best : FacilityView) (tt : TravelEstimate) : List String :=
  [ (if selectedPersona = "pregnancy" then
      "Any pregnancy symptoms should be evaluated at ER"
     else "Urgent Care centers are currently closed"),
    best.name ++ " has shortest wait (" ++ toString best.currentWaitTime ++ " min)",
    "Travel: " ++ tt.distance ++ " mi, " ++ toString tt.time ++ " min",
    (if noUCs then "Still appropriate for mild symptoms"
     else "Better safe than sorry during pregnancy") ]

/-- Models `App.js` `handleGetRecommendation` as a function of its inputs: the
selected persona and severity, the travel estimator, and the fetched
facility views. Returns `none` when the source produces no recommendation:
the empty-facilities early return (alert), or a `TypeError` from
`scored[0].facility` on an empty candidate array. Any severity other than
`'Severe'`/`'Moderate'` takes the source's final (Mild) branch, and any
persona not special-cased takes the burn branches, as in the source. -/
def recommend (selectedPersona severity : String)
    (travel : Position → TravelEstimate)
    (facilities : List FacilityView) : Option Recommendation :=
  if facilities.isEmpty then none
  else if severity = "Severe" then
    if selectedPersona = "pregnancy" ∨ selectedPersona = "asthma" then
      let fac := (facilities.find? fun f => hasGrady f.name) <|> (erOpen facilities).head?
      let tt := travelOpt travel (fac.map fun f => f.position)
      some { decision := "STAY - Call 911", facility := fac,
             travelTime := some tt,
             reasoning := severeStayReasoning selectedPersona fac }
    else if selectedPersona = "dementia" then
      match firstMaxBy (fun f => severeScore f (travel f.position).time)
          (erOpen facilities) with
      | none => none
      | some best =>
          some { decision := "MOVE to ER with Caretaker", facility := some best,
                 travelTime := some (travel best.position),
                 reasoning := severeDementiaReasoning best }
    else
      let fac := (facilities.find? fun f => hasGrady f.name) <|> (erOpen facilities).head?
      let tt := travelOpt travel (fac.map fun f => f.position)
      some { decision := "STAY - Call 911", facility := fac,
             travelTime := some tt,
             reasoning := severeBurnReasoning fac tt }
  else if severity = "Moderate" then
    match firstMaxBy (fun f => moderateScore selectedPersona f (travel f.position).time)
        (moderateCandidates selectedPersona facilities) with
    | none => none
    | some best =>
        let tt := travel best.position
        let totalTime := (tt.time : ℤ) + best.currentWaitTime
        some { decision := "MOVE to " ++ best.type, facility := some best,
               travelTime := some tt,
               reasoning := moderateReasoning selectedPersona best tt totalTime }
  else
    if 0 < ((ucOpen facilities).filter fun f => f.status == "Open").length
        ∧ selectedPersona ≠ "pregnancy" then
      match firstMinBy (fun f => ((travel f.position).time : ℤ) + f.currentWaitTime)
          ((ucOpen facilities).filter fun f => f.status == "Open") with
      | none => none
      | some best =>
          let tt := travel best.position
          let totalTime := (tt.time : ℤ) + best.currentWaitTime
          some { decision := "MOVE to Urgent Care", facility := some best,
                 travelTime := some tt,
                 reasoning := mildUCReasoning selectedPersona best tt totalTime }
    else
      match firstMinBy (fun f => ((travel f.position).time : ℤ) + f.currentWaitTime)
          (erOpen facilities) with
      | none => none
      | some best =>
          let tt := travel best.position
          some { decision :=
                   if ((ucOpen facilities).filter fun f => f.status == "Open").length = 0
                   then "MOVE to ER (Urgent Care closed)"
                   else "MOVE to ER",
                 facility := some best,
                 travelTime := some tt,
                 reasoning :=
                   mildERReasoning selectedPersona
                     (((ucOpen facilities).filter fun f => f.status == "Open").length == 0)
                     best tt }

/-!
## Travel estimator (`App.js` `calculateTravelTime`), real-valued model

The geometric part of the estimator uses floating-point trigonometry; it is
modelled over `ℝ`. Only here are reals needed — the engine consumes the
integer minutes.
-/

/-- A latitude/longitude pair over the reals, for the trigonometric
distance computation. -/
structure RealPosition where
  lat : ℝ
  lng : ℝ

/-- The estimator's `{ time, distance }` result with the raw (unformatted)
distance in miles; the source formats it with `toFixed(1)` for display. -/
structure RealTravelEstimate where
  time : ℤ
  distance : ℝ

/-- JS `Math.atan2(y, x)`. Only the `x > 0` branch is exercised by the
proofs below. -/
noncomputable def atan2 (y x : ℝ) : ℝ :=
  if 0 < x then Real.arctan (y / x)
  else if x < 0 ∧ 0 ≤ y then Real.arctan (y / x) + Real.pi
  else if x < 0 then Real.arctan (y / x) - Real.pi
  else if 0 < y then Real.pi / 2
  else if y < 0 then -(Real.pi / 2)
  else 0

/-- JS `Math.round` over the reals: `⌊x + 1/2⌋`. -/
noncomputable def jroundR (x : ℝ) : ℤ := ⌊x + 1/2⌋

/-- The `switch (currentTraffic)` speed lookup of `calculateTravelTime`,
with the 25 mph base speed as the `default`. -/
def speedForTraffic (traffic : String) : ℚ :=
  if traffic = "low" then 30
  else if traffic = "moderate" then 20
  else if traffic = "heavy" then 15
  else if traffic = "severe" then 10
  else 25

/-- Models `App.js` `calculateTravelTime(facilityPosition)`: the haversine
distance (Earth radius 3959 miles) from the user location, and travel
minutes `max(1, Math.round(distance / speed * 60))` at the traffic-derived
speed for the simulated hour. A missing position returns the
`{ time: 0, distance: '0.0' }` sentinel. The user location is the source's
`userLocation` constant, passed explicitly here. -/
noncomputable def calculateTravelTime (userLoc : RealPosition) (simulatedHour : ℕ) :
    Option RealPosition → RealTravelEstimate
  | none => { time := 0, distance := 0 }
  | some facPos =>
      let R : ℝ := 3959
      let dLat := (facPos.lat - userLoc.lat) * Real.pi / 180
      let dLng := (facPos.lng - userLoc.lng) * Real.pi / 180
      let a := Real.sin (dLat / 2) * Real.sin (dLat / 2)
        + Real.cos (userLoc.lat * Real.pi / 180) * Real.cos (facPos.lat * Real.pi / 180)
          * Real.sin (dLng / 2) * Real.sin (dLng / 2)
      let c := 2 * atan2 (Real.sqrt a) (Real.sqrt (1 - a))
      let distance := R * c
      let speed : ℝ := (speedForTraffic (getTrafficForHour simulatedHour) : ℝ)
      let time := jroundR (distance / speed * 60)
      { time := max 1 time, distance := distance }

/-- The user location of `App.js`: Klaus Advanced Computing Building,
Georgia Tech. -/
noncomputable def userLocation : RealPosition :=
  { lat := 33.777525, lng := -84.396128 }

/-- Modelled from the spec: the great-circle distance via the haversine
formula with Earth radius 3959 miles, written independently of
`calculateTravelTime` for comparison with it. -/
noncomputable def haversineDistance (origin facPos : RealPosition) : ℝ :=
  let R : ℝ := 3959
  let dLat := (facPos.lat - origin.lat) * Real.pi / 180
  let dLng := (facPos.lng - origin.lng) * Real.pi / 180
  let a := Real.sin (dLat / 2) * Real.sin (dLat / 2)
    + Real.cos (origin.lat * Real.pi / 180) * Real.cos (facPos.lat * Real.pi / 180)
      * Real.sin (dLng / 2) * Real.sin (dLng / 2)
  R * (2 * atan2 (Real.sqrt a) (Real.sqrt (1 - a)))

/-!
## Spec-side scoring model and concrete test fixtures
-/

/-- Modelled from the spec (§4.4 step 3): `score = (100 − waitMinutes) × wWait
+ (50 − travelMinutes) × wTravel + categoryBonus`, with the weight pairs
0.5/0.3, 0.4/0.4, 0.3/0.5 and 0.4/0.3 for the pregnancy, asthma, dementia
and burn reference personas, and the fixed persona-specific category
bonuses (ER +20; Urgent Care +20; flat +20; Urgent Care +30). Written
independently of the engine's `moderateScore` for comparison with it. -/
def specScore (persona : String) (facility : FacilityView) (travelMinutes : ℕ) : ℚ :=
  let wWait : ℚ :=
    if persona = "pregnancy" then 0.5
    else if persona = "asthma" then 0.4
    else if persona = "dementia" then 0.3
    else 0.4
  let wTravel : ℚ :=
    if persona = "pregnancy" then 0.3
    else if persona = "asthma" then 0.4
    else if persona = "dementia" then 0.5
    else 0.3
  let categoryBonus : ℚ :=
    if persona = "pregnancy" then (if facility.type = "ER" then 20 else 0)
    else if persona = "asthma" then (if facility.type = "Urgent Care" then 20 else 0)
    else if persona = "dementia" then 20
    else (if facility.type = "Urgent Care" then 30 else 0)
  (100 - (facility.currentWaitTime : ℚ)) * wWait
    + (50 - (travelMinutes : ℚ)) * wTravel + categoryBonus

/-- Concrete positions for the engine fixtures below. -/
def cePos1 : Position := { lat := 1, lng := 1 }

def cePos2 : Position := { lat := 2, lng := 2 }

/-- A concrete travel estimator for the engine fixtures: 10 minutes to
`cePos1`, 16 minutes anywhere else. -/
def ceTravel : Position → TravelEstimate :=
  fun p => if p = cePos1 then { time := 10, distance := "3.0" }
    else { time := 16, distance := "5.0" }

/-- Open ER fixture: wait 10 at `cePos1` (10 travel minutes under `ceTravel`). -/
def ceER1 : FacilityView :=
  { id := 1, name := "Alpha Emergency", type := "ER", position := cePos1,
    baseWaitTime := 10, currentWaitTime := 10, waitTimeDisplay := "10 min",
    status := "Open", capacity := "High" }

/-- Open ER fixture: wait 0 at `cePos2` (16 travel minutes under `ceTravel`);
ties `ceER1` on the dementia Moderate score. -/
def ceER2 : FacilityView :=
  { id := 2, name := "Beta Emergency", type := "ER", position := cePos2,
    baseWaitTime := 0, currentWaitTime := 0, waitTimeDisplay := "0 min",
    status := "Open", capacity := "High" }

/-- Open ER fixture with a long wait, listed first in the C5 input. -/
def ceSlowER : FacilityView :=
  { id := 11, name := "Slow Emergency", type := "ER", position := cePos1,
    baseWaitTime := 50, currentWaitTime := 50, waitTimeDisplay := "50 min",
    status := "Open", capacity := "Low" }

/-- Open ER fixture with a short wait, listed second in the C5 input. -/
def ceFastER : FacilityView :=
  { id := 12, name := "Fast Emergency", type := "ER", position := cePos2,
    baseWaitTime := 10, currentWaitTime := 10, waitTimeDisplay := "10 min",
    status := "Open", capacity := "High" }

/-- A closed Urgent Care fixture. -/
def ceClosedUC : FacilityView :=
  { id := 13, name := "Night Clinic", type := "Urgent Care", position := cePos2,
    baseWaitTime := 15, currentWaitTime := 0, waitTimeDisplay := "Closed",
    status := "Closed", capacity := "High" }

/-- An open Urgent Care fixture. -/
def ceOpenUC : FacilityView :=
  { id := 14, name := "Day Clinic", type := "Urgent Care", position := cePos1,
    baseWaitTime := 15, currentWaitTime := 5, waitTimeDisplay := "5 min",
    status := "Open", capacity := "High" }

/-- A closed Urgent Care fixture whose name contains `Grady`. -/
def ceGradyClinic : FacilityView :=
  { id := 15, name := "Grady Walk-In Clinic", type := "Urgent Care",
    position := cePos2, baseWaitTime := 15, currentWaitTime := 0,
    waitTimeDisplay := "Closed", status := "Closed", capacity := "High" }

/-- The catalog's projection at hour 12 with every ER removed: the input of
the C1 scenario "all ERs removed from the input facility set". -/
def ersRemoved12 : List FacilityView :=
  (getFacilitiesWithCurrentStatus 12).filter fun f => !(f.type == "ER")

/-!
## Properties of the selection helpers
-/


theorem foldMax_mem {α β : Type} [LinearOrder β] (key : α → β) :
    ∀ (xs : List α) (x : α),
      xs.foldl (fun acc y => if key acc < key y then y else acc) x ∈ x :: xs
  | [], _ => List.mem_cons_self _ _
  | y :: ys, x => by
      rw [List.foldl_cons]
      have ih := foldMax_mem key ys (if key x < key y then y else x)
      rcases List.mem_cons.mp ih with h | h
      · rw [h]
        split <;> simp
      · simp [List.mem_cons, Or.inr (Or.inr h)]

theorem foldMax_le {α β : Type} [LinearOrder β] (key : α → β) :
    ∀ (xs : List α) (x : α), ∀ z ∈ x :: xs,
      key z ≤ key (xs.foldl (fun acc y => if key acc < key y then y else acc) x)
  | [], x, z, hz => by
      rcases List.mem_cons.mp hz with h | h
      · rw [h, List.foldl_nil]
      · cases h
  | y :: ys, x, z, hz => by
      rw [List.foldl_cons]
      have hstep : key x ≤ key (if key x < key y then y else x) ∧
          key y ≤ key (if key x < key y then y else x) := by
        split
        · exact ⟨le_of_lt (by assumption), le_refl _⟩
        · exact ⟨le_refl _, le_of_not_lt (by assumption)⟩
      have ih := foldMax_le key ys (if key x < key y then y else x)
      rcases List.mem_cons.mp hz with h | h
      · rw [h]
        exact le_trans hstep.1 (ih _ (List.mem_cons_self _ _))
      · rcases List.mem_cons.mp h with h2 | h2
        · rw [h2]
          exact le_trans hstep.2 (ih _ (List.mem_cons_self _ _))
        · exact ih z (List.mem_cons.mpr (Or.inr h2))

theorem firstMaxBy_mem {α β : Type} [LinearOrder β] (key : α → β) {l : List α} {x : α}
    (h : firstMaxBy key l = some x) : x ∈ l := by
  cases l with
  | nil => cases h
  | cons a as =>
      have := foldMax_mem key as a
      rw [firstMaxBy] at h
      injection h with h
      rw [← h]
      exact this

theorem firstMaxBy_maximal {α β : Type} [LinearOrder β] (key : α → β) {l : List α} {x : α}
    (h : firstMaxBy key l = some x) : ∀ z ∈ l, key z ≤ key x := by
  cases l with
  | nil => cases h
  | cons a as =>
      intro z hz
      rw [firstMaxBy] at h
      injection h with h
      rw [← h]
      exact foldMax_le key as a z hz

theorem firstMaxBy_isSome {α β : Type} [LinearOrder β] (key : α → β) {l : List α}
    (h : l ≠ []) : (firstMaxBy key l).isSome := by
  cases l with
  | nil => exact absurd rfl h
  | cons a as => rfl

theorem foldMin_mem {α β : Type} [LinearOrder β] (key : α → β) :
    ∀ (xs : List α) (x : α),
      xs.foldl (fun acc y => if key y < key acc then y else acc) x ∈ x :: xs
  | [], _ => List.mem_cons_self _ _
  | y :: ys, x => by
      rw [List.foldl_cons]
      have ih := foldMin_mem key ys (if key y < key x then y else x)
      rcases List.mem_cons.mp ih with h | h
      · rw [h]
        split <;> simp
      · simp [List.mem_cons, Or.inr (Or.inr h)]

theorem foldMin_le {α β : Type} [LinearOrder β] (key : α → β) :
    ∀ (xs : List α) (x : α), ∀ z ∈ x :: xs,
      key (xs.foldl (fun acc y => if key y < key acc then y else acc) x) ≤ key z
  | [], x, z, hz => by
      rcases List.mem_cons.mp hz with h | h
      · rw [h, List.foldl_nil]
      · cases h
  | y :: ys, x, z, hz => by
      rw [List.foldl_cons]
      have hstep : key (if key y < key x then y else x) ≤ key x ∧
          key (if key y < key x then y else x) ≤ key y := by
        split
        · exact ⟨le_of_lt (by assumption), le_refl _⟩
        · exact ⟨le_refl _, le_of_not_lt (by assumption)⟩
      have ih := foldMin_le key ys (if key y < key x then y else x)
      rcases List.mem_cons.mp hz with h | h
      · rw [h]
        exact le_trans (ih _ (List.mem_cons_self _ _)) hstep.1
      · rcases List.mem_cons.mp h with h2 | h2
        · rw [h2]
          exact le_trans (ih _ (List.mem_cons_self _ _)) hstep.2
        · exact ih z (List.mem_cons.mpr (Or.inr h2))

theorem firstMinBy_mem {α β : Type} [LinearOrder β] (key : α → β) {l : List α} {x : α}
    (h : firstMinBy key l = some x) : x ∈ l := by
  cases l with
  | nil => cases h
  | cons a as =>
      have := foldMin_mem key as a
      rw [firstMinBy] at h
      injection h with h
      rw [← h]
      exact this

theorem firstMinBy_minimal {α β : Type} [LinearOrder β] (key : α → β) {l : List α} {x : α}
    (h : firstMinBy key l = some x) : ∀ z ∈ l, key x ≤ key z := by
  cases l with
  | nil => cases h
  | cons a as =>
      intro z hz
      rw [firstMinBy] at h
      injection h with h
      rw [← h]
      exact foldMin_le key as a z hz

theorem firstMinBy_isSome {α β : Type} [LinearOrder β] (key : α → β) {l : List α}
    (h : l ≠ []) : (firstMinBy key l).isSome := by
  cases l with
  | nil => exact absurd rfl h
  | cons a as => rfl
/-- The engine's inline Moderate score coincides with the spec's scoring
formula for each of the four reference personas. -/
theorem moderateScore_eq_specScore (persona : String)
    (hp : persona = "pregnancy" ∨ persona = "asthma" ∨ persona = "dementia"
      ∨ persona = "burn")
    (facility : FacilityView) (travelMinutes : ℕ) :
    moderateScore persona facility travelMinutes
      = specScore persona facility travelMinutes := by
  rcases hp with h | h | h | h <;> subst h <;>
    unfold moderateScore specScore <;> norm_num <;> simp

/-!
## Branch-evaluation lemmas for the engine
-/

theorem firstMaxBy_pair {α β : Type} [LinearOrder β] (key : α → β) (a b : α) :
    firstMaxBy key [a, b] = some (if key a < key b then b else a) := rfl

theorem recommend_severe_stay (persona : String) (travel : Position → TravelEstimate)
    (facilities : List FacilityView) (hne : facilities.isEmpty = false)
    (hp : persona = "pregnancy" ∨ persona = "asthma") :
    recommend persona "Severe" travel facilities
      = some { decision := "STAY - Call 911",
               facility := (facilities.find? fun f => hasGrady f.name)
                 <|> (erOpen facilities).head?,
               travelTime := some (travelOpt travel
                 (((facilities.find? fun f => hasGrady f.name)
                   <|> (erOpen facilities).head?).map fun f => f.position)),
               reasoning := severeStayReasoning persona
                 ((facilities.find? fun f => hasGrady f.name)
                   <|> (erOpen facilities).head?) } := by
  unfold recommend
  rw [hne, if_neg (by decide), if_pos rfl, if_pos hp]

theorem recommend_severe_other (persona : String) (travel : Position → TravelEstimate)
    (facilities : List FacilityView) (hne : facilities.isEmpty = false)
    (h1 : ¬(persona = "pregnancy" ∨ persona = "asthma"))
    (h2 : ¬persona = "dementia") :
    recommend persona "Severe" travel facilities
      = some { decision := "STAY - Call 911",
               facility := (facilities.find? fun f => hasGrady f.name)
                 <|> (erOpen facilities).head?,
               travelTime := some (travelOpt travel
                 (((facilities.find? fun f => hasGrady f.name)
                   <|> (erOpen facilities).head?).map fun f => f.position)),
               reasoning := severeBurnReasoning
                 ((facilities.find? fun f => hasGrady f.name)
                   <|> (erOpen facilities).head?)
                 (travelOpt travel
                   (((facilities.find? fun f => hasGrady f.name)
                     <|> (erOpen facilities).head?).map fun f => f.position)) } := by
  unfold recommend
  rw [hne, if_neg (by decide), if_pos rfl, if_neg h1, if_neg h2]

theorem recommend_severe_dementia (travel : Position → TravelEstimate)
    (facilities : List FacilityView) (hne : facilities.isEmpty = false) :
    recommend "dementia" "Severe" travel facilities
      = match firstMaxBy (fun f => severeScore f (travel f.position).time)
            (erOpen facilities) with
        | none => none
        | some best =>
            some { decision := "MOVE to ER with Caretaker", facility := some best,
                   travelTime := some (travel best.position),
                   reasoning := severeDementiaReasoning best } := by
  unfold recommend
  rw [hne, if_neg (by decide), if_pos rfl, if_neg (by decide), if_pos rfl]

theorem recommend_moderate (persona : String) (travel : Position → TravelEstimate)
    (facilities : List FacilityView) (hne : facilities.isEmpty = false) :
    recommend persona "Moderate" travel facilities
      = match firstMaxBy (fun f => moderateScore persona f (travel f.position).time)
            (moderateCandidates persona facilities) with
        | none => none
        | some best =>
            some { decision := "MOVE to " ++ best.type, facility := some best,
                   travelTime := some (travel best.position),
                   reasoning := moderateReasoning persona best (travel best.position)
                     (((travel best.position).time : ℤ) + best.currentWaitTime) } := by
  unfold recommend
  rw [hne, if_neg (by decide), if_neg (by decide), if_pos rfl]

theorem recommend_mild_uc (persona severity : String)
    (travel : Position → TravelEstimate) (facilities : List FacilityView)
    (hne : facilities.isEmpty = false)
    (hs1 : ¬severity = "Severe") (hs2 : ¬severity = "Moderate")
    (hcond : 0 < ((ucOpen facilities).filter fun f => f.status == "Open").length
      ∧ persona ≠ "pregnancy") :
    recommend persona severity travel facilities
      = match firstMinBy (fun f => ((travel f.position).time : ℤ) + f.currentWaitTime)
            ((ucOpen facilities).filter fun f => f.status == "Open") with
        | none => none
        | some best =>
            some { decision := "MOVE to Urgent Care", facility := some best,
                   travelTime := some (travel best.position),
                   reasoning := mildUCReasoning persona best (travel best.position)
                     (((travel best.position).time : ℤ) + best.currentWaitTime) } := by
  unfold recommend
  rw [hne, if_neg (by decide), if_neg hs1, if_neg hs2, if_pos hcond]

theorem recommend_mild_er (persona severity : String)
    (travel : Position → TravelEstimate) (facilities : List FacilityView)
    (hne : facilities.isEmpty = false)
    (hs1 : ¬severity = "Severe") (hs2 : ¬severity = "Moderate")
    (hcond : ¬(0 < ((ucOpen facilities).filter fun f => f.status == "Open").length
      ∧ persona ≠ "pregnancy")) :
    recommend persona severity travel facilities
      = match firstMinBy (fun f => ((travel f.position).time : ℤ) + f.currentWaitTime)
            (erOpen facilities) with
        | none => none
        | some best =>
            some { decision :=
                     if ((ucOpen facilities).filter fun f => f.status == "Open").length = 0
                     then "MOVE to ER (Urgent Care closed)"
                     else "MOVE to ER",
                   facility := some best,
                   travelTime := some (travel best.position),
                   reasoning :=
                     mildERReasoning persona
                       (((ucOpen facilities).filter fun f => f.status == "Open").length == 0)
                       best (travel best.position) } := by
  unfold recommend
  rw [hne, if_neg (by decide), if_neg hs1, if_neg hs2, if_neg hcond]

/-- Members of `erOpen` have status `'Open'` (and type `'ER'`). -/
theorem mem_erOpen (f : FacilityView) (facilities : List FacilityView)
    (h : f ∈ erOpen facilities) : f.type = "ER" ∧ f.status = "Open" := by
  have := List.mem_filter.mp h
  have hb := this.2
  rw [Bool.and_eq_true, beq_iff_eq, beq_iff_eq] at hb
  exact hb

/-- Members of `ucOpen` have status `'Open'` (and type `'Urgent Care'`). -/
theorem mem_ucOpen (f : FacilityView) (facilities : List FacilityView)
    (h : f ∈ ucOpen facilities) : f.type = "Urgent Care" ∧ f.status = "Open" := by
  have := List.mem_filter.mp h
  have hb := this.2
  rw [Bool.and_eq_true, beq_iff_eq, beq_iff_eq] at hb
  exact hb

/-- Members of the Moderate candidate list are open. -/
theorem mem_moderateCandidates (persona : String) (f : FacilityView)
    (facilities : List FacilityView) (h : f ∈ moderateCandidates persona facilities) :
    f.status = "Open" := by
  unfold moderateCandidates at h
  split at h
  · rcases List.mem_append.mp h with h2 | h2
    · exact (mem_erOpen f facilities h2).2
    · exact (mem_ucOpen f facilities h2).2
  · exact (mem_erOpen f facilities h).2

/-!
## Theorems about the temporal model and projector
-/

/-- C7: for every hour in [0,24) the wait multiplier of each category
matches the table exactly (ER: [18,23)→1.8, [14,18)→1.5, [10,14)→1.0,
[6,10)→1.2, else 0.7; Urgent Care: [9,12)→1.6, [12,14)→1.3, [14,18)→1.8,
[18,20)→1.4, [20,24)∪[0,8)→0, else 1.0), both multipliers are
non-negative, and every projected view's `currentWaitTime` equals
`round(baseWaitMinutes * multiplier)`. -/
theorem C7_wait_multiplier_table (hour : ℕ) (hh : hour < 24) :
    (((18 ≤ hour ∧ hour < 23) → getTimeMultiplier "ER" hour = 1.8)
      ∧ ((14 ≤ hour ∧ hour < 18) → getTimeMultiplier "ER" hour = 1.5)
      ∧ ((10 ≤ hour ∧ hour < 14) → getTimeMultiplier "ER" hour = 1.0)
      ∧ ((6 ≤ hour ∧ hour < 10) → getTimeMultiplier "ER" hour = 1.2)
      ∧ ((hour < 6 ∨ 23 ≤ hour) → getTimeMultiplier "ER" hour = 0.7)
      ∧ ((9 ≤ hour ∧ hour < 12) → getTimeMultiplier "Urgent Care" hour = 1.6)
      ∧ ((12 ≤ hour ∧ hour < 14) → getTimeMultiplier "Urgent Care" hour = 1.3)
      ∧ ((14 ≤ hour ∧ hour < 18) → getTimeMultiplier "Urgent Care" hour = 1.8)
      ∧ ((18 ≤ hour ∧ hour < 20) → getTimeMultiplier "Urgent Care" hour = 1.4)
      ∧ ((20 ≤ hour ∨ hour < 8) → getTimeMultiplier "Urgent Care" hour = 0)
      ∧ ((8 ≤ hour ∧ hour < 9) → getTimeMultiplier "Urgent Care" hour = 1.0)
      ∧ 0 ≤ getTimeMultiplier "ER" hour
      ∧ 0 ≤ getTimeMultiplier "Urgent Care" hour)
    ∧ ∀ f : BaseFacility,
        (projectFacility f hour).currentWaitTime
          = jround ((f.baseWaitTime : ℚ) * getTimeMultiplier f.type hour) := by
  refine ⟨⟨?_, ?_, ?_, ?_, ?_, ?_, ?_, ?_, ?_, ?_, ?_, ?_, ?_⟩, fun f => rfl⟩
  · intro h
    unfold getTimeMultiplier
    rw [if_pos rfl, if_pos h]
  · intro h
    unfold getTimeMultiplier
    rw [if_pos rfl, if_neg (by omega), if_pos h]
  · intro h
    unfold getTimeMultiplier
    rw [if_pos rfl, if_neg (by omega), if_neg (by omega), if_pos h]
  · intro h
    unfold getTimeMultiplier
    rw [if_pos rfl, if_neg (by omega), if_neg (by omega), if_neg (by omega), if_pos h]
  · intro h
    unfold getTimeMultiplier
    rw [if_pos rfl, if_neg (by omega), if_neg (by omega), if_neg (by omega),
      if_neg (by omega)]
  · intro h
    unfold getTimeMultiplier
    rw [if_neg (by decide), if_pos h]
  · intro h
    unfold getTimeMultiplier
    rw [if_neg (by decide), if_neg (by omega), if_pos h]
  · intro h
    unfold getTimeMultiplier
    rw [if_neg (by decide), if_neg (by omega), if_neg (by omega), if_pos h]
  · intro h
    unfold getTimeMultiplier
    rw [if_neg (by decide), if_neg (by omega), if_neg (by omega), if_neg (by omega),
      if_pos h]
  · intro h
    unfold getTimeMultiplier
    rw [if_neg (by decide), if_neg (by omega), if_neg (by omega), if_neg (by omega),
      if_neg (by omega), if_pos h]
  · intro h
    unfold getTimeMultiplier
    rw [if_neg (by decide), if_neg (by omega), if_neg (by omega), if_neg (by omega),
      if_neg (by omega), if_neg (by omega)]
  · unfold getTimeMultiplier
    rw [if_pos rfl]
    split_ifs <;> norm_num
  · unfold getTimeMultiplier
    rw [if_neg (by decide)]
    split_ifs <;> norm_num

theorem C7_wait_multiplier_table_witness :
    (18 : ℕ) < 24 ∧ getTimeMultiplier "ER" 18 = 1.8
      ∧ getTimeMultiplier "ER" 17 = 1.5 ∧ getTimeMultiplier "Urgent Care" 22 = 0 :=
  ⟨by decide,
   (C7_wait_multiplier_table 18 (by decide)).1.1 (by decide),
   (C7_wait_multiplier_table 17 (by decide)).1.2.1 (by decide),
   (C7_wait_multiplier_table 22 (by decide)).1.2.2.2.2.2.2.2.2.2.1 (by decide)⟩

/-- C8: at every hour in [0,24) an EmergencyRoom view is `'Open'`; an
Urgent Care with explicit hours `[o, c)` other than the all-day sentinel
is `'Open'` iff `o ≤ hour < c`; the sentinel `[0,24)` is always `'Open'`;
missing hours default to the 8–20 window; in particular the `[8,20)`
window is closed at hours 7 and 20 and open at hours 8 and 19. -/
theorem C8_open_status_rule (hour : ℕ) (hh : hour < 24) :
    (∀ f : BaseFacility, f.type = "ER" → (projectFacility f hour).status = "Open")
    ∧ (∀ (f : BaseFacility) (o c : ℕ), f.type = "Urgent Care" →
        f.openHour = some o → f.closeHour = some c → ¬(o = 0 ∧ c = 24) →
        ((projectFacility f hour).status = "Open" ↔ o ≤ hour ∧ hour < c))
    ∧ (∀ f : BaseFacility, f.type = "Urgent Care" → f.openHour = some 0 →
        f.closeHour = some 24 → (projectFacility f hour).status = "Open")
    ∧ (∀ f : BaseFacility, f.type = "Urgent Care" → f.openHour = none →
        f.closeHour = none →
        ((projectFacility f hour).status = "Open" ↔ 8 ≤ hour ∧ hour < 20))
    ∧ (facilityStatus "Urgent Care" (some 8) (some 20) 7 = "Closed"
       ∧ facilityStatus "Urgent Care" (some 8) (some 20) 20 = "Closed"
       ∧ facilityStatus "Urgent Care" (some 8) (some 20) 8 = "Open"
       ∧ facilityStatus "Urgent Care" (some 8) (some 20) 19 = "Open") := by
  have hstat : ∀ f : BaseFacility,
      (projectFacility f hour).status
        = facilityStatus f.type f.openHour f.closeHour hour := fun f => rfl
  refine ⟨?_, ?_, ?_, ?_, by decide⟩
  · intro f htype
    rw [hstat, htype]
    unfold facilityStatus
    rw [if_pos rfl]
  · intro f o c htype ho hc hsent
    rw [hstat, htype, ho, hc]
    unfold facilityStatus
    rw [if_neg (by decide), if_pos rfl, if_pos ⟨rfl, rfl⟩]
    simp only [Option.getD_some]
    rw [if_neg hsent]
    constructor
    · intro hopen
      by_cases hwin : hour < o ∨ hour ≥ c
      · rw [if_pos hwin] at hopen
        exact absurd hopen (by decide)
      · omega
    · intro hw
      rw [if_neg (by omega)]
  · intro f htype ho hc
    rw [hstat, htype, ho, hc]
    unfold facilityStatus
    rw [if_neg (by decide), if_pos rfl, if_pos ⟨rfl, rfl⟩, if_pos ⟨rfl, rfl⟩]
  · intro f htype ho hc
    rw [hstat, htype, ho, hc]
    unfold facilityStatus
    rw [if_neg (by decide), if_pos rfl, if_neg (by simp)]
    constructor
    · intro hopen
      by_cases hwin : hour < 8 ∨ hour ≥ 20
      · rw [if_pos hwin] at hopen
        exact absurd hopen (by decide)
      · omega
    · intro hw
      rw [if_neg (by omega)]

theorem C8_open_status_rule_witness :
    (10 : ℕ) < 24
    ∧ facilityStatus "Urgent Care" (some 8) (some 20) 7 = "Closed"
    ∧ facilityStatus "Urgent Care" (some 8) (some 20) 8 = "Open" :=
  ⟨by decide,
   (C8_open_status_rule 10 (by decide)).2.2.2.2.1,
   (C8_open_status_rule 10 (by decide)).2.2.2.2.2.2.1⟩

/-- C10: at every hour in [20,24)∪[0,8), the projected view of the
always-open urgent care (catalog id 6, `openHour 0` / `closeHour 24`) has
status `'Open'` but `currentWaitTime = 0` (its category multiplier is 0),
`waitTimeDisplay = 'Closed'` and `capacity = 'High'`; and the Mild branch
of the engine keeps it in its open-urgent-care candidate list
(`availableUCs`). -/
theorem C10_always_open_uc_zero_wait (hour : ℕ) (hh : hour < 24)
    (hwin : 20 ≤ hour ∨ hour < 8) :
    (projectFacility uc247 hour).status = "Open"
    ∧ (projectFacility uc247 hour).currentWaitTime = 0
    ∧ (projectFacility uc247 hour).waitTimeDisplay = "Closed"
    ∧ (projectFacility uc247 hour).capacity = "High"
    ∧ projectFacility uc247 hour ∈
        (ucOpen (getFacilitiesWithCurrentStatus hour)).filter
          (fun f => f.status == "Open") := by
  have hm : getTimeMultiplier uc247.type hour = 0 := by
    unfold getTimeMultiplier
    rw [if_neg (by decide), if_neg (by omega), if_neg (by omega), if_neg (by omega),
      if_neg (by omega), if_pos hwin]
  have hw0 : jround ((uc247.baseWaitTime : ℚ) * getTimeMultiplier uc247.type hour) = 0 := by
    have hz : (uc247.baseWaitTime : ℚ) * getTimeMultiplier uc247.type hour = 0 := by
      rw [hm, mul_zero]
    rw [jround, hz, Int.floor_eq_iff]
    norm_num
  refine ⟨rfl, hw0, ?_, ?_, ?_⟩
  · simp only [projectFacility]
    rw [if_neg]
    intro hcon
    rw [hw0] at hcon
    exact absurd hcon.2 (by norm_num)
  · simp only [projectFacility]
    rw [hw0, if_pos (by norm_num)]
  · refine List.mem_filter.mpr ⟨List.mem_filter.mpr ⟨?_, rfl⟩, rfl⟩
    exact List.mem_map_of_mem _ (by simp [baseFacilities])

/-!
## Theorems about the recommendation engine
-/

/-- C1 (amended): the engine has no `NoAvailableFacility` error at all.
When the input has no facility named `Grady` and no open ER, a Severe call
for the burn persona still returns a normal recommendation whose decision
is `'STAY - Call 911'` and whose chosen facility is absent (`none`). -/
theorem C1_severe_no_er_absent_facility (travel : Position → TravelEstimate)
    (facilities : List FacilityView)
    (hne : facilities.isEmpty = false)
    (hg : ∀ f ∈ facilities, hasGrady f.name = false)
    (her : erOpen facilities = []) :
    Option.map (fun r => (r.decision, r.facility))
        (recommend "burn" "Severe" travel facilities)
      = some ("STAY - Call 911", none) := by
  have hfind : (facilities.find? fun f => hasGrady f.name) = none :=
    List.find?_eq_none.mpr fun f hf => by simp [hg f hf]
  rw [recommend_severe_other "burn" travel facilities hne (by decide) (by decide)]
  rw [hfind, her]
  rfl

/-- C1 counterexample: for the claim's scenario (all ERs removed, Severe,
burn persona) the engine does not fail: it returns a recommendation, and
that recommendation's chosen facility is absent. -/
theorem C1_counterexample_no_failure_raised :
    ersRemoved12.isEmpty = false
    ∧ Option.map (fun r => (r.decision, r.facility))
        (recommend "burn" "Severe" ceTravel ersRemoved12)
      = some ("STAY - Call 911", none) :=
  ⟨rfl, rfl⟩

theorem C1_severe_no_er_absent_facility_witness :
    (ersRemoved12.isEmpty = false ∧ erOpen ersRemoved12 = [])
    ∧ Option.map (fun r => (r.decision, r.facility))
        (recommend "burn" "Severe" ceTravel ersRemoved12)
      = some ("STAY - Call 911", none) :=
  ⟨⟨rfl, rfl⟩,
   C1_severe_no_er_absent_facility ceTravel ersRemoved12 rfl (by decide) rfl⟩

/-- C2 (amended): at hour 22 the 24-hour urgent care (catalog id 6) is
still open, so the burn persona at Mild severity gets `'MOVE to Urgent
Care'` with that urgent care chosen — not the claim's
`'MOVE to ER (Urgent Care closed)'` — and no failure occurs. This holds
for every travel estimator, hence for the source's. -/
theorem C2_mild_hour22_moves_to_open_uc (travel : Position → TravelEstimate) :
    Option.map (fun r => (r.decision, r.facility))
        (recommend "burn" "Mild" travel (getFacilitiesWithCurrentStatus 22))
      = some ("MOVE to Urgent Care", some (projectFacility uc247 22))
    ∧ (projectFacility uc247 22).type = "Urgent Care"
    ∧ (projectFacility uc247 22).status = "Open" := by
  have hlist : ((ucOpen (getFacilitiesWithCurrentStatus 22)).filter
      fun f => f.status == "Open") = [projectFacility uc247 22] := rfl
  refine ⟨?_, rfl, rfl⟩
  rw [recommend_mild_uc "burn" "Mild" travel (getFacilitiesWithCurrentStatus 22) rfl
    (by decide) (by decide) ⟨by rw [hlist]; decide, by decide⟩]
  rw [hlist]
  rfl

/-- C2 counterexample: at hour 22 the engine's action category for the
burn persona at Mild severity is `'MOVE to Urgent Care'` with the
Urgent Care facility id 6 chosen — not `'MOVE to ER (Urgent Care closed)'`
with an ER. -/
theorem C2_counterexample_uc_open_at_22 :
    Option.map (fun r => (r.decision, Option.map (fun f => (f.id, f.type)) r.facility))
        (recommend "burn" "Mild" ceTravel (getFacilitiesWithCurrentStatus 22))
      = some ("MOVE to Urgent Care", some (6, "Urgent Care")) := rfl

/-- C3 (amended): whenever every Grady-named facility of the input is
open — as in the repository's catalog, where the only Grady facility is an
always-open ER — any chosen facility of any recommendation has status
`'Open'`; a closed facility is never selected. (Without that hypothesis the
Severe branch's unfiltered `facilities.find(f => f.name.includes('Grady'))`
can select a closed facility.) -/
theorem C3_chosen_facility_is_open (persona severity : String)
    (travel : Position → TravelEstimate) (facilities : List FacilityView)
    (hg : ∀ f ∈ facilities, hasGrady f.name = true → f.status = "Open")
    (f : FacilityView)
    (hf : ((recommend persona severity travel facilities).bind fun r => r.facility)
      = some f) :
    f.status = "Open" := by
  by_cases hemp : facilities.isEmpty = true
  · unfold recommend at hf
    rw [if_pos hemp] at hf
    cases hf
  have hne : facilities.isEmpty = false := by
    revert hemp
    cases facilities.isEmpty
    · intro _
      rfl
    · intro h
      exact absurd rfl h
  have headMem : ∀ (l : List FacilityView) (a : FacilityView), l.head? = some a → a ∈ l := by
    intro l a h
    cases l with
    | nil => cases h
    | cons x xs =>
        injection h with h
        rw [← h]
        exact List.mem_cons_self _ _
  have hGradyCase : ((facilities.find? fun g => hasGrady g.name)
      <|> (erOpen facilities).head?) = some f → f.status = "Open" := by
    intro hfac
    cases hfind : facilities.find? fun g => hasGrady g.name with
    | some g =>
        rw [hfind] at hfac
        simp only [Option.some_orElse] at hfac
        injection hfac with hfac
        rw [← hfac]
        have hpred := List.find?_some hfind
        exact hg g (List.mem_of_find?_eq_some hfind) hpred
    | none =>
        rw [hfind] at hfac
        simp only [Option.none_orElse] at hfac
        exact (mem_erOpen f facilities (headMem _ f hfac)).2
  by_cases hsev : severity = "Severe"
  · subst hsev
    by_cases hp : persona = "pregnancy" ∨ persona = "asthma"
    · rw [recommend_severe_stay persona travel facilities hne hp] at hf
      simp only [Option.some_bind] at hf
      exact hGradyCase hf
    by_cases hd : persona = "dementia"
    · subst hd
      rw [recommend_severe_dementia travel facilities hne] at hf
      cases hfm : firstMaxBy (fun g => severeScore g (travel g.position).time)
          (erOpen facilities) with
      | none => rw [hfm] at hf; cases hf
      | some best =>
          rw [hfm] at hf
          simp only [Option.some_bind] at hf
          injection hf with hf
          rw [← hf]
          exact (mem_erOpen best facilities (firstMaxBy_mem _ hfm)).2
    · rw [recommend_severe_other persona travel facilities hne hp hd] at hf
      simp only [Option.some_bind] at hf
      exact hGradyCase hf
  by_cases hmod : severity = "Moderate"
  · subst hmod
    rw [recommend_moderate persona travel facilities hne] at hf
    cases hfm : firstMaxBy (fun g => moderateScore persona g (travel g.position).time)
        (moderateCandidates persona facilities) with
    | none => rw [hfm] at hf; cases hf
    | some best =>
        rw [hfm] at hf
        simp only [Option.some_bind] at hf
        injection hf with hf
        rw [← hf]
        exact mem_moderateCandidates persona best facilities (firstMaxBy_mem _ hfm)
  by_cases hcond : 0 < ((ucOpen facilities).filter fun g => g.status == "Open").length
      ∧ persona ≠ "pregnancy"
  · rw [recommend_mild_uc persona severity travel facilities hne hsev hmod hcond] at hf
    cases hfm : firstMinBy (fun g => ((travel g.position).time : ℤ) + g.currentWaitTime)
        ((ucOpen facilities).filter fun g => g.status == "Open") with
    | none => rw [hfm] at hf; cases hf
    | some best =>
        rw [hfm] at hf
        simp only [Option.some_bind] at hf
        injection hf with hf
        rw [← hf]
        have hmem := firstMinBy_mem _ hfm
        have := (List.mem_filter.mp hmem).2
        rw [beq_iff_eq] at this
        exact this
  · rw [recommend_mild_er persona severity travel facilities hne hsev hmod hcond] at hf
    cases hfm : firstMinBy (fun g => ((travel g.position).time : ℤ) + g.currentWaitTime)
        (erOpen facilities) with
    | none => rw [hfm] at hf; cases hf
    | some best =>
        rw [hfm] at hf
        simp only [Option.some_bind] at hf
        injection hf with hf
        rw [← hf]
        exact (mem_erOpen best facilities (firstMinBy_mem _ hfm)).2

/-- C3 counterexample: on an input whose Grady-named facility is a closed
urgent care, the Severe branch selects that closed facility — the
open-facility invariant fails for arbitrary facility inputs. -/
theorem C3_counterexample_closed_grady_selected :
    Option.map (fun r => Option.map (fun f => (f.name, f.status)) r.facility)
        (recommend "burn" "Severe" ceTravel [ceGradyClinic, ceFastER])
      = some (some ("Grady Walk-In Clinic", "Closed")) := rfl

theorem C3_chosen_facility_is_open_witness :
    hasGrady ceOpenUC.name = false ∧ ceOpenUC.status = "Open" :=
  ⟨rfl,
   C3_chosen_facility_is_open "burn" "Mild" ceTravel [ceOpenUC] (by decide)
     ceOpenUC rfl⟩

/-- C4 (amended): on a non-empty facility list, Severe yields
`'STAY - Call 911'` for the burn, pregnancy and asthma personas regardless
of wait times; for the dementia persona, when at least one open ER exists,
Severe yields `'MOVE to ER with Caretaker'` choosing an open ER whose
`(100 − wait) + (50 − 2×travel)` score is maximal. (On an empty facility
list the engine returns nothing, and with no open ER the dementia branch
crashes, returning nothing.) -/
theorem C4_severe_policy :
    (∀ (persona : String) (travel : Position → TravelEstimate)
        (facilities : List FacilityView),
        persona = "burn" ∨ persona = "pregnancy" ∨ persona = "asthma" →
        facilities.isEmpty = false →
        Option.map (fun r => r.decision) (recommend persona "Severe" travel facilities)
          = some "STAY - Call 911")
    ∧ ∀ (travel : Position → TravelEstimate) (facilities : List FacilityView),
        erOpen facilities ≠ [] →
        ∃ best,
          Option.map (fun r => (r.decision, r.facility))
              (recommend "dementia" "Severe" travel facilities)
            = some ("MOVE to ER with Caretaker", some best)
          ∧ best ∈ erOpen facilities
          ∧ ∀ g ∈ erOpen facilities,
              severeScore g (travel g.position).time
                ≤ severeScore best (travel best.position).time := by
  constructor
  · intro persona travel facilities hp hne
    rcases hp with h | h | h <;> subst h
    · rw [recommend_severe_other "burn" travel facilities hne (by decide) (by decide)]
      rfl
    · rw [recommend_severe_stay "pregnancy" travel facilities hne (Or.inl rfl)]
      rfl
    · rw [recommend_severe_stay "asthma" travel facilities hne (Or.inr rfl)]
      rfl
  · intro travel facilities her
    have hne : facilities.isEmpty = false := by
      cases facilities with
      | nil => exact absurd rfl her
      | cons a as => rfl
    obtain ⟨best, hbest⟩ := Option.isSome_iff_exists.mp
      (firstMaxBy_isSome (fun g => severeScore g (travel g.position).time) her)
    refine ⟨best, ?_, firstMaxBy_mem _ hbest, firstMaxBy_maximal _ hbest⟩
    rw [recommend_severe_dementia travel facilities hne, hbest]
    rfl

/-- C4 counterexample: a non-empty facility state (one closed urgent
care) on which the dementia persona at Severe yields no recommendation at
all (the source crashes on `scored[0]` of an empty array) instead of a
Move action. -/
theorem C4_counterexample_dementia_no_open_er :
    [ceClosedUC].isEmpty = false
    ∧ recommend "dementia" "Severe" ceTravel [ceClosedUC] = none :=
  ⟨rfl, rfl⟩

theorem C4_severe_policy_witness :
    Option.map (fun r => r.decision) (recommend "burn" "Severe" ceTravel [ceFastER])
        = some "STAY - Call 911"
    ∧ Option.map (fun r => (r.decision, r.facility))
        (recommend "dementia" "Severe" ceTravel [ceFastER])
      = some ("MOVE to ER with Caretaker", some ceFastER) := by
  refine ⟨C4_severe_policy.1 "burn" ceTravel [ceFastER] (Or.inl rfl) rfl, ?_⟩
  obtain ⟨best, hmap, hmem, hmax⟩ := C4_severe_policy.2 ceTravel [ceFastER] (by decide)
  have hm2 : best ∈ [ceFastER] := hmem
  rw [List.mem_singleton.mp hm2] at hmap
  exact hmap

/-- C5 (amended): every Severe call of a persona other than dementia (the
calls that yield Stay) chooses the first facility whose name contains
`Grady` when one exists, and otherwise the FIRST open ER in input order —
not the open ER with the shortest current wait. -/
theorem C5_severe_stay_target (persona : String)
    (travel : Position → TravelEstimate) (facilities : List FacilityView)
    (hnd : ¬persona = "dementia") (hne : facilities.isEmpty = false) :
    Option.map (fun r => (r.decision, r.facility))
        (recommend persona "Severe" travel facilities)
      = some ("STAY - Call 911",
          (facilities.find? fun f => hasGrady f.name) <|> (erOpen facilities).head?) := by
  by_cases hp : persona = "pregnancy" ∨ persona = "asthma"
  · rw [recommend_severe_stay persona travel facilities hne hp]
    rfl
  · rw [recommend_severe_other persona travel facilities hne hp hnd]
    rfl

/-- C5 counterexample: with no Grady-named facility and two open ERs —
the first with a 50-minute wait, the second with a 10-minute wait — the
Severe Stay branch chooses the first ER, not the one with the shortest
current wait. -/
theorem C5_counterexample_first_er_not_lowest_wait :
    Option.map (fun r => (r.decision, r.facility))
        (recommend "burn" "Severe" ceTravel [ceSlowER, ceFastER])
      = some ("STAY - Call 911", some ceSlowER)
    ∧ ceFastER ∈ erOpen [ceSlowER, ceFastER]
    ∧ ceFastER.currentWaitTime < ceSlowER.currentWaitTime
    ∧ hasGrady ceSlowER.name = false ∧ hasGrady ceFastER.name = false := by
  refine ⟨rfl, ?_, by decide, rfl, rfl⟩
  refine List.mem_filter.mpr ⟨?_, rfl⟩
  exact List.mem_cons.mpr (Or.inr (List.mem_cons_self _ _))

theorem C5_severe_stay_target_witness :
    (¬("burn" : String) = "dementia" ∧ [ceSlowER, ceFastER].isEmpty = false)
    ∧ Option.map (fun r => (r.decision, r.facility))
        (recommend "burn" "Severe" ceTravel [ceSlowER, ceFastER])
      = some ("STAY - Call 911",
          ([ceSlowER, ceFastER].find? fun f => hasGrady f.name)
            <|> (erOpen [ceSlowER, ceFastER]).head?) :=
  ⟨⟨by decide, rfl⟩,
   C5_severe_stay_target "burn" ceTravel [ceSlowER, ceFastER] (by decide) rfl⟩

/-- C6 (amended): for each of the four reference personas at Moderate
severity with a non-empty candidate set, the engine's computed score
coincides with `specScore` — the spec's
`(100 − wait) × wWait + (50 − travel) × wTravel + categoryBonus` with
weight pairs 0.5/0.3, 0.4/0.4, 0.3/0.5 and 0.4/0.3 — and the chosen
facility is the FIRST candidate of maximal score in candidate-list order
(open ERs first, then open urgent cares for the burn persona); ties are
NOT broken by lower wait, then travel, then id. -/
theorem C6_moderate_weighted_scoring (persona : String)
    (travel : Position → TravelEstimate) (facilities : List FacilityView)
    (hp : persona = "pregnancy" ∨ persona = "asthma" ∨ persona = "dementia"
      ∨ persona = "burn")
    (hne : moderateCandidates persona facilities ≠ []) :
    ∃ best,
      firstMaxBy (fun f => specScore persona f (travel f.position).time)
          (moderateCandidates persona facilities) = some best
      ∧ Option.map (fun r => (r.decision, r.facility))
          (recommend persona "Moderate" travel facilities)
          = some ("MOVE to " ++ best.type, some best)
      ∧ best ∈ moderateCandidates persona facilities
      ∧ ∀ g ∈ moderateCandidates persona facilities,
          specScore persona g (travel g.position).time
            ≤ specScore persona best (travel best.position).time := by
  have hfun : (fun f => moderateScore persona f (travel f.position).time)
      = fun f => specScore persona f (travel f.position).time :=
    funext fun f => moderateScore_eq_specScore persona hp f _
  have hne2 : facilities.isEmpty = false := by
    cases facilities with
    | nil =>
        refine absurd ?_ hne
        unfold moderateCandidates
        split <;> rfl
    | cons a as => rfl
  obtain ⟨best, hbest⟩ := Option.isSome_iff_exists.mp
    (firstMaxBy_isSome (fun f => specScore persona f (travel f.position).time) hne)
  refine ⟨best, hbest, ?_, firstMaxBy_mem _ hbest, firstMaxBy_maximal _ hbest⟩
  rw [recommend_moderate persona travel facilities hne2, hfun, hbest]
  rfl

/-- C6 counterexample: two open ERs whose dementia Moderate scores tie at
67; the engine keeps the first candidate (wait 10) although the second has
the lower wait (0), so ties are not broken by lower wait minutes. -/
theorem C6_counterexample_tie_not_broken_by_wait :
    specScore "dementia" ceER1 (ceTravel ceER1.position).time
        = specScore "dementia" ceER2 (ceTravel ceER2.position).time
    ∧ ceER2.currentWaitTime < ceER1.currentWaitTime
    ∧ Option.map (fun r => r.facility)
        (recommend "dementia" "Moderate" ceTravel [ceER1, ceER2])
      = some (some ceER1) := by
  have ht1 : ceTravel ceER1.position = { time := 10, distance := "3.0" } := by
    unfold ceTravel
    rw [if_pos (show ceER1.position = cePos1 from rfl)]
  have ht2 : ceTravel ceER2.position = { time := 16, distance := "5.0" } := by
    unfold ceTravel
    rw [if_neg]
    intro h
    rw [show ceER2.position = cePos2 from rfl, cePos2, cePos1] at h
    injection h with h1 h2
    norm_num at h1
  have hs1 : specScore "dementia" ceER1 10 = 67 := by
    unfold specScore
    norm_num [show ceER1.currentWaitTime = 10 from rfl]
    simp
    norm_num
  have hs2 : specScore "dementia" ceER2 16 = 67 := by
    unfold specScore
    norm_num [show ceER2.currentWaitTime = 0 from rfl]
    simp
    norm_num
  have hlt : ¬ moderateScore "dementia" ceER1 (ceTravel ceER1.position).time
      < moderateScore "dementia" ceER2 (ceTravel ceER2.position).time := by
    rw [ht1, ht2]
    rw [moderateScore_eq_specScore "dementia" (Or.inr (Or.inr (Or.inl rfl))),
      moderateScore_eq_specScore "dementia" (Or.inr (Or.inr (Or.inl rfl)))]
    rw [show ({ time := 10, distance := "3.0" } : TravelEstimate).time = 10 from rfl,
      show ({ time := 16, distance := "5.0" } : TravelEstimate).time = 16 from rfl,
      hs1, hs2]
    exact lt_irrefl 67
  refine ⟨?_, by decide, ?_⟩
  · rw [ht1, ht2]
    rw [show ({ time := 10, distance := "3.0" } : TravelEstimate).time = 10 from rfl,
      show ({ time := 16, distance := "5.0" } : TravelEstimate).time = 16 from rfl,
      hs1, hs2]
  · have hfm : firstMaxBy (fun f => moderateScore "dementia" f (ceTravel f.position).time)
        (moderateCandidates "dementia" [ceER1, ceER2]) = some ceER1 := by
      rw [show moderateCandidates "dementia" [ceER1, ceER2] = [ceER1, ceER2] from rfl]
      simp only [firstMaxBy_pair]
      rw [if_neg hlt]
    rw [recommend_moderate "dementia" ceTravel [ceER1, ceER2] rfl, hfm]
    rfl

theorem C6_moderate_weighted_scoring_witness :
    Option.map (fun r => (r.decision, r.facility))
        (recommend "dementia" "Moderate" ceTravel [ceER2])
      = some ("MOVE to " ++ ceER2.type, some ceER2) := by
  obtain ⟨best, hbest, hmap, hmem, hmax⟩ :=
    C6_moderate_weighted_scoring "dementia" ceTravel [ceER2] (by decide) (by decide)
  have hb : some ceER2 = some best := hbest
  injection hb with hb
  rw [← hb] at hmap
  exact hmap

/-- The haversine distance from a point to itself vanishes. -/
theorem haversineDistance_self (u : RealPosition) : haversineDistance u u = 0 := by
  unfold haversineDistance
  rw [sub_self, sub_self]
  simp only [zero_mul, zero_div, Real.sin_zero, mul_zero, zero_add, add_zero,
    Real.sqrt_zero, sub_zero, Real.sqrt_one]
  rw [show atan2 0 1 = 0 by
    unfold atan2
    rw [if_pos one_pos, zero_div, Real.arctan_zero]]
  ring

/-- C9: the travel estimate's distance is exactly the haversine
great-circle distance with Earth radius 3959 miles; its minutes are
`max(1, round(distance / speed * 60))` at the speed given by the traffic
level — 30/20/15/10 mph for low/moderate/heavy/severe and 25 mph for any
other value; and from a point to itself the distance is 0 and the time is
clamped to 1 minute, never 0. -/
theorem C9_travel_estimator (u p : RealPosition) (hour : ℕ) (s : String)
    (hs : s ≠ "low" ∧ s ≠ "moderate" ∧ s ≠ "heavy" ∧ s ≠ "severe") :
    ((calculateTravelTime u hour (some p)).distance = haversineDistance u p
      ∧ (calculateTravelTime u hour (some p)).time
          = max 1 (jroundR (haversineDistance u p
              / ((speedForTraffic (getTrafficForHour hour) : ℚ) : ℝ) * 60)))
    ∧ (speedForTraffic "low" = 30 ∧ speedForTraffic "moderate" = 20
        ∧ speedForTraffic "heavy" = 15 ∧ speedForTraffic "severe" = 10
        ∧ speedForTraffic s = 25)
    ∧ ((calculateTravelTime u hour (some u)).distance = 0
        ∧ (calculateTravelTime u hour (some u)).time = 1) := by
  have hd : ∀ q : RealPosition,
      (calculateTravelTime u hour (some q)).distance = haversineDistance u q :=
    fun q => rfl
  have ht : ∀ q : RealPosition,
      (calculateTravelTime u hour (some q)).time
        = max 1 (jroundR (haversineDistance u q
            / ((speedForTraffic (getTrafficForHour hour) : ℚ) : ℝ) * 60)) :=
    fun q => rfl
  refine ⟨⟨hd p, ht p⟩, ⟨rfl, rfl, rfl, rfl, ?_⟩, ?_, ?_⟩
  · unfold speedForTraffic
    rw [if_neg hs.1, if_neg hs.2.1, if_neg hs.2.2.1, if_neg hs.2.2.2]
  · rw [hd u, haversineDistance_self]
  · rw [ht u, haversineDistance_self, zero_div, zero_mul]
    rw [show jroundR 0 = 0 by
      rw [jroundR, zero_add, Int.floor_eq_iff]
      norm_num]
    decide

theorem C9_travel_estimator_witness :
    (("unknown" : String) ≠ "low" ∧ ("unknown" : String) ≠ "moderate"
      ∧ ("unknown" : String) ≠ "heavy" ∧ ("unknown" : String) ≠ "severe")
    ∧ speedForTraffic "low" = 30 ∧ speedForTraffic "unknown" = 25
    ∧ (calculateTravelTime { lat := 1, lng := 2 } 3
          (some { lat := 1, lng := 2 })).distance = 0
    ∧ (calculateTravelTime { lat := 1, lng := 2 } 3
          (some { lat := 1, lng := 2 })).time = 1 :=
  ⟨by decide,
   (C9_travel_estimator { lat := 1, lng := 2 } { lat := 0, lng := 0 } 3 "unknown"
       (by decide)).2.1.1,
   (C9_travel_estimator { lat := 1, lng := 2 } { lat := 0, lng := 0 } 3 "unknown"
       (by decide)).2.1.2.2.2.2,
   (C9_travel_estimator { lat := 1, lng := 2 } { lat := 0, lng := 0 } 3 "unknown"
       (by decide)).2.2.1,
   (C9_travel_estimator { lat := 1, lng := 2 } { lat := 0, lng := 0 } 3 "unknown"
       (by decide)).2.2.2⟩

theorem C10_always_open_uc_zero_wait_witness :
    ((22 : ℕ) < 24 ∧ (20 ≤ 22 ∨ (22 : ℕ) < 8))
    ∧ (projectFacility uc247 22).status = "Open"
    ∧ (projectFacility uc247 22).currentWaitTime = 0
    ∧ (projectFacility uc247 22).waitTimeDisplay = "Closed" :=
  ⟨⟨by decide, by decide⟩,
   (C10_always_open_uc_zero_wait 22 (by decide) (by decide)).1,
   (C10_always_open_uc_zero_wait 22 (by decide) (by decide)).2.1,
   (C10_always_open_uc_zero_wait 22 (by decide) (by decide)).2.2.1⟩

end Evac
